import Mathlib

/-!
Verification of the cross-network transaction relay and its chain simulator.

This file gives a shallow embedding, in Lean, of the JavaScript sources of the
relay repository and proves (or refutes) the frozen specification claims about
them.  The embedded components are:

* the chain simulator `MockProvider` and its WebSocket wrapper
  `MockWebSocketProvider` (scripts/mock/mock-provider.cjs),
* the relay orchestrator `RelayManager` — its `relayTransaction` /
  `shouldRetry` / `retryTransaction` retry path, its `handleDisconnect`
  handler and its `waitForConnections` verification protocol
  (scripts/relay/relay-manager.js, the .cjs variant),
* `MainnetRelay.relayTransaction` with its gas-price ceiling
  (scripts/relay/mainnet-relay.js),
* `TransactionMonitor.handleReconnection`
  (scripts/monitoring/transaction-monitor.js).

Effectful JavaScript is modelled by explicit state passing; the results of
network calls (RPC responses, submission outcomes, wall-clock readings) are
supplied as oracle functions indexed by the call position, so each theorem
quantifies over all possible network behaviours.  All definitions are
computable so that concrete runs can be evaluated inside proofs.
-/

/-! ## Chain simulator: data synthesised by MockProvider (mock-provider.cjs) -/

/-- One hex digit, lower case, as produced by JavaScript number/byte hex
formatting (0-9 then a-f). -/
def hexDigitChar (n : Nat) : Char :=
  if n < 10 then Char.ofNat (48 + n) else Char.ofNat (87 + n)

/-- The two-hex-character encoding of one ASCII character, as produced by
Buffer.toString('hex') for that byte. -/
def asciiByteHex (c : Char) : List Char :=
  [hexDigitChar (c.toNat / 16), hexDigitChar (c.toNat % 16)]

/-- Buffer.from(s).toString('hex') for an ASCII string s: each character
becomes two hex characters. -/
def bufferToHex (s : String) : List Char :=
  s.data.foldr (fun c acc => asciiByteHex c ++ acc) []

/-- String.prototype.padStart(n, '0'): prepend zeros up to length n. -/
def padStartZero (l : List Char) (n : Nat) : List Char :=
  List.replicate (n - l.length) '0' ++ l

/-- The identifier-from-number scheme used throughout the simulator:
0x + Buffer.from(n.toString()).toString('hex').padStart(64, '0').
The simulator uses it both for transaction hashes (applied to Date.now())
and for block hashes (applied to the block number). -/
def timeHash (now : Nat) : String :=
  String.mk ('0' :: 'x' :: padStartZero (bufferToHex (Nat.repr now)) 64)

/-- Number.prototype.toString(16) for a natural number (lower-case hex). -/
def natToHex (n : Nat) : String :=
  String.mk (Nat.toDigits 16 n)

/-- A synthesized transaction, with the exact field shapes produced by
MockProvider.generateMockTransaction (numeric fields that the source stores
as hex strings are kept as strings).  The source fields named from and to
are Lean keywords, so they are embedded as fromAddr and toAddr. -/
structure MockTx where
  hash : String
  fromAddr : String
  toAddr : String
  value : String
  gasLimit : String
  gasPrice : String
  nonce : String
  data : String
  chainId : Nat
  blockNumber : Nat
  timestamp : Nat
  status : Nat
  deriving Repr, DecidableEq

/-- The mutable state of one MockProvider instance: current block height and
the transaction store (a JavaScript Map keyed by transaction hash, kept here
as an insertion-ordered association list). -/
structure MockProviderState where
  blockNumber : Nat
  transactions : List (String × MockTx)
  chainId : Nat
  deriving Repr, DecidableEq

/-- JavaScript Map.prototype.set: replace in place if the key is present
(keeping its insertion position), otherwise append. -/
def mapSet (m : List (String × MockTx)) (k : String) (v : MockTx) :
    List (String × MockTx) :=
  if m.any (fun p => p.1 == k) then
    m.map (fun p => if p.1 == k then (k, v) else p)
  else m ++ [(k, v)]

/-- MockProvider.generateMockTransaction, with Date.now() passed in as now
(milliseconds).  The hash is derived solely from the timestamp; the nonce is
the current Map size; the transaction is stored under its hash. -/
def MockProviderState.generateMockTransaction (s : MockProviderState)
    (now : Nat) : MockProviderState × MockTx :=
  let hash := timeHash now
  let tx : MockTx :=
    { hash := hash
      fromAddr := "0x" ++ String.mk (List.replicate 40 '1')
      toAddr := "0x" ++ String.mk (List.replicate 40 '2')
      value := "0x" ++ natToHex 1000000000000000000
      gasLimit := "0x" ++ natToHex 21000
      gasPrice := "0x" ++ natToHex 1000000000
      nonce := "0x" ++ natToHex s.transactions.length
      data := "0x"
      chainId := s.chainId
      blockNumber := s.blockNumber
      timestamp := now / 1000
      status := 1 }
  ({ s with transactions := mapSet s.transactions hash tx }, tx)

/-- The block object returned by MockProvider.getBlock. -/
structure MockBlock where
  number : Nat
  hash : String
  timestamp : Nat
  transactions : List String
  deriving Repr, DecidableEq

/-- MockProvider.getBlock, with Date.now() passed in as now (milliseconds).
The source parses its blockNumberOrHash argument into a local variable and
then never uses it: the returned object always carries the provider's
current blockNumber, the hash encoding of that current number, the query
time, and the keys of the whole transaction store. -/
def MockProviderState.getBlock (s : MockProviderState) (now : Nat)
    (blockNumberOrHash : Nat) : MockBlock :=
  { number := s.blockNumber
    hash := timeHash s.blockNumber
    timestamp := now / 1000
    transactions := s.transactions.map Prod.fst }

/-- Generate txCount mock transactions in a row, all with the same Date.now()
reading (the source loop runs synchronously inside one timer tick). -/
def genTxs (s : MockProviderState) (now : Nat) : Nat → MockProviderState
  | 0 => s
  | n + 1 => genTxs (s.generateMockTransaction now).1 now n

/-- One tick of the startBlockProduction interval timer: increment the block
number, generate 1-3 transactions (the random count is passed in as
txCount), and emit the new block number.  Returns the new state and the
emitted number. -/
def MockProviderState.blockTick (s : MockProviderState) (now : Nat)
    (txCount : Nat) : MockProviderState × Nat :=
  let s1 := { s with blockNumber := s.blockNumber + 1 }
  let s2 := genTxs s1 now txCount
  (s2, s2.blockNumber)

/-- Run a sequence of block-production ticks; each input is the (Date.now(),
random transaction count) pair for that tick.  Returns the final state and
the emitted block numbers in emission order. -/
def runTicks (s : MockProviderState) : List (Nat × Nat) →
    MockProviderState × List Nat
  | [] => (s, [])
  | (now, c) :: rest =>
    let t := s.blockTick now c
    let r := runTicks t.1 rest
    (r.1, t.2 :: r.2)

/-! ## MockWebSocketProvider connection management (mock-provider.cjs) -/

/-- The connection-relevant state of one MockWebSocketProvider: the wrapped
MockProvider, the connected flag, the connection-attempt counter and its
ceiling (maxRetries, 3 in the source), and the configured chain id. -/
structure MockWSState where
  mock : MockProviderState
  connected : Bool
  connectionAttempts : Nat
  maxRetries : Nat
  chainId : Nat
  deriving Repr, DecidableEq

/-- MockWebSocketProvider.connect: throw once the attempt counter has reached
maxRetries, otherwise increment the counter, simulate network detection and
mark the provider connected (the timer registration for block production is
modelled separately by blockTick). -/
def MockWSState.connect (s : MockWSState) : Except String MockWSState :=
  if s.maxRetries ≤ s.connectionAttempts then
    Except.error "Max connection attempts reached"
  else
    Except.ok { s with
      connectionAttempts := s.connectionAttempts + 1
      connected := true }

/-- MockWebSocketProvider.disconnect: stop block production, clear the
connected flag and reset the connection-attempt counter. -/
def MockWSState.disconnect (s : MockWSState) : MockWSState :=
  { s with connected := false, connectionAttempts := 0 }

/-- A fresh MockProvider with the default configuration. -/
def mpInit : MockProviderState :=
  { blockNumber := 0, transactions := [], chainId := 138 }

/-- A fresh MockWebSocketProvider wrapping a fresh MockProvider. -/
def wsInit : MockWSState :=
  { mock := mpInit, connected := false, connectionAttempts := 0,
    maxRetries := 3, chainId := 138 }

/-! ## RelayManager: per-transaction relay with retry (relay-manager.js) -/

/-- The RelayManager metrics object. -/
structure RelayMetrics where
  transactions : Nat
  successful : Nat
  failed : Nat
  retries : Nat
  disconnections : Nat
  deriving Repr, DecidableEq

/-- The state of one RelayManager relevant to the relay/retry path: the
metrics counters, the configured retry ceiling (config.metrics.retryAttempts,
3 by default), and the ordered trace of wallet.sendTransaction calls (one
entry per submission attempt, recording which source hash was being
relayed).  The manager keeps no other per-transaction state. -/
structure RelayState where
  metrics : RelayMetrics
  retryAttempts : Nat
  submissions : List String
  deriving Repr, DecidableEq

/-- RelayManager.shouldRetry: the decision reads only the global retries
counter and the configured ceiling; the txHash argument is ignored. -/
def RelayState.shouldRetry (s : RelayState) (txHash : String) : Bool :=
  s.metrics.retries < s.retryAttempts

/-- RelayManager.relayTransaction together with RelayManager.retryTransaction
(which sleeps and calls relayTransaction again), unfolded into one
fuel-indexed recursion.

Oracles: present says whether provider.getTransaction finds the source
transaction; outcome, indexed by the global submission count, says whether
the submission attempt succeeds (wallet.sendTransaction returns, the receipt
resolves and receipt.status === 1) — any thrown error or bad receipt status
is a false.

Control flow of the source: count the transaction; return silently if the
source transaction is absent; otherwise submit; on success count successful;
on any failure count failed, and if the global retries counter is below the
ceiling, count a retry and recurse. -/
def relayTransaction (present : String → Bool) (outcome : Nat → Bool) :
    Nat → RelayState → String → RelayState
  | 0, s, _ => s
  | fuel + 1, s, txHash =>
    let s1 := { s with metrics :=
      { s.metrics with transactions := s.metrics.transactions + 1 } }
    if present txHash then
      let s2 := { s1 with submissions := s1.submissions ++ [txHash] }
      if outcome s1.submissions.length then
        { s2 with metrics :=
          { s2.metrics with successful := s2.metrics.successful + 1 } }
      else
        let s3 := { s2 with metrics :=
          { s2.metrics with failed := s2.metrics.failed + 1 } }
        if s3.shouldRetry txHash then
          let s4 := { s3 with metrics :=
            { s3.metrics with retries := s3.metrics.retries + 1 } }
          relayTransaction present outcome fuel s4 txHash
        else s3
    else s1

/-- Entry point for one relayTransaction call.  The recursion through
retryTransaction strictly increases metrics.retries and is guarded by
metrics.retries < retryAttempts, so retryAttempts + 1 units of fuel always
suffice; the fuel never runs out on the paths the source can take. -/
def relayTransactionRun (present : String → Bool) (outcome : Nat → Bool)
    (s : RelayState) (txHash : String) : RelayState :=
  relayTransaction present outcome (s.retryAttempts + 1) s txHash

/-- Which side of the relay a connection event concerns. -/
inductive NetworkSide
  | source
  | target
  deriving Repr, DecidableEq

/-- Connection flags of the RelayManager (this.connectionState). -/
structure ConnectionState where
  source : Bool
  target : Bool
  deriving Repr, DecidableEq

/-- The RelayManager state touched by handleDisconnect. -/
structure OrchestratorState where
  metrics : RelayMetrics
  connectionState : ConnectionState
  deriving Repr, DecidableEq

/-- RelayManager.handleDisconnect: mark the side disconnected, increment the
disconnections metric, and immediately await provider.connect().  The
returned number is the delay in milliseconds before that reconnection
attempt: the handler uses no timer and no backoff, so it is always 0, and
there is no attempt ceiling in this path — reconnection is attempted on
every disconnect event. -/
def handleDisconnect (s : OrchestratorState) (side : NetworkSide) :
    OrchestratorState × Nat :=
  let cs := match side with
    | NetworkSide.source => { s.connectionState with source := false }
    | NetworkSide.target => { s.connectionState with target := false }
  ({ s with
     connectionState := cs
     metrics := { s.metrics with
       disconnections := s.metrics.disconnections + 1 } }, 0)

/-! ## TransactionMonitor reconnection (transaction-monitor.js) -/

/-- The TransactionMonitor state touched by handleReconnection. -/
structure MonitorState where
  isRunning : Bool
  reconnectAttempts : Nat
  maxReconnectAttempts : Nat
  reconnectDelay : Nat
  deriving Repr, DecidableEq

/-- What one handleReconnection call does: either the monitor stops, or a
reconnection is scheduled as attempt number attempt after delay
milliseconds. -/
inductive ReconnectStep
  | stopped
  | scheduled (attempt : Nat) (delay : Nat)
  deriving Repr, DecidableEq

/-- TransactionMonitor.handleReconnection: once the attempt counter has
reached maxReconnectAttempts the monitor stops itself; otherwise the counter
is incremented, the delay is doubled (before being used, so the first
scheduled delay is twice the initial reconnectDelay), and reconnection is
scheduled after the doubled delay. -/
def handleReconnection (s : MonitorState) : MonitorState × ReconnectStep :=
  if s.maxReconnectAttempts ≤ s.reconnectAttempts then
    ({ s with isRunning := false }, ReconnectStep.stopped)
  else
    let attempts := s.reconnectAttempts + 1
    let delay := s.reconnectDelay * 2
    ({ s with reconnectAttempts := attempts, reconnectDelay := delay },
     ReconnectStep.scheduled attempts delay)

/-- A freshly constructed TransactionMonitor after start(): 0 reconnection
attempts, ceiling 5, initial delay 1000 ms. -/
def monitorInit : MonitorState :=
  { isRunning := true, reconnectAttempts := 0, maxReconnectAttempts := 5,
    reconnectDelay := 1000 }

/-- A RelayManager with zeroed metrics and the default retry configuration
(retryAttempts = 3 from network-config). -/
def relayS0 : RelayState :=
  { metrics := { transactions := 0, successful := 0, failed := 0,
                 retries := 0, disconnections := 0 },
    retryAttempts := 3, submissions := [] }

/-- An orchestrator with zeroed metrics and both sides connected. -/
def orchInit : OrchestratorState :=
  { metrics := { transactions := 0, successful := 0, failed := 0,
                 retries := 0, disconnections := 0 },
    connectionState := { source := true, target := true } }

/-! ## MainnetRelay.relayTransaction (mainnet-relay.js) -/

/-- The environment of one MainnetRelay.relayTransaction call.  Oracles are
indexed by the loop-iteration number: gasPriceAt is what
provider.getGasPrice() resolves to, sendOk whether wallet.sendTransaction
resolves, receiptStatusOk whether sentTx.wait(1) resolves with a truthy
receipt.status.  hasEip1559 says whether the incoming transaction carries
both maxFeePerGas and maxPriorityFeePerGas (in which case the source skips
the gas-price ceiling check entirely). -/
structure MainnetAttemptEnv where
  hasEip1559 : Bool
  gasPriceAt : Nat → Nat
  maxGasPrice : Nat
  sendOk : Nat → Bool
  receiptStatusOk : Nat → Bool

/-- What one iteration of the MainnetRelay while-loop does before its catch
handler runs. -/
inductive AttemptResult
  | gasRejected
  | failed
  | confirmed
  deriving Repr, DecidableEq

/-- The k-th loop iteration: on the legacy (non-EIP1559) path a gas price
above the ceiling throws before wallet.sendTransaction is reached
(gasRejected); otherwise the transaction is submitted and either confirms or
fails (send throws, or the receipt reports a falsy status). -/
def attemptAt (env : MainnetAttemptEnv) (k : Nat) : AttemptResult :=
  if env.hasEip1559 = false ∧ env.maxGasPrice < env.gasPriceAt k then
    AttemptResult.gasRejected
  else if env.sendOk k && env.receiptStatusOk k then
    AttemptResult.confirmed
  else AttemptResult.failed

/-- How one MainnetRelay.relayTransaction call ends. -/
inductive MainnetResultKind
  | succeeded
  | refError
  | noEntry
  deriving Repr, DecidableEq

/-- The observable result of one MainnetRelay.relayTransaction call: how it
ended, the final value of the attempts counter, the iteration indices at
which wallet.sendTransaction was called, and the iteration indices whose
txInfo was stored into this.transactions. -/
structure MainnetRelayResult where
  kind : MainnetResultKind
  attempts : Nat
  submitted : List Nat
  recorded : List Nat
  deriving Repr, DecidableEq

/-- MainnetRelay.relayTransaction (initialized, maxRetries from config).

The while-loop of the source can never run a second iteration: sentTx is
declared with const inside the try block, and the catch block evaluates
sentTx?.hash, which is outside that block scope, so the first caught failure
of any kind (gas ceiling, send error, failed receipt) increments attempts to
1 and then the catch handler itself raises
ReferenceError: sentTx is not defined, which propagates out of the call
before the retry delay is reached.  Hence: a confirmed first attempt returns
success with the record stored; any failing first attempt ends with
attempts = 1, nothing recorded, and a ReferenceError escaping; and with
maxRetries = 0 the loop body never runs and the call resolves to undefined
(noEntry). -/
def mainnetRelayTransaction (env : MainnetAttemptEnv) (maxRetries : Nat) :
    MainnetRelayResult :=
  if 0 < maxRetries then
    match attemptAt env 0 with
    | AttemptResult.confirmed =>
      { kind := MainnetResultKind.succeeded, attempts := 0,
        submitted := [0], recorded := [0] }
    | AttemptResult.gasRejected =>
      { kind := MainnetResultKind.refError, attempts := 1,
        submitted := [], recorded := [] }
    | AttemptResult.failed =>
      { kind := MainnetResultKind.refError, attempts := 1,
        submitted := [0], recorded := [] }
  else
    { kind := MainnetResultKind.noEntry, attempts := 0,
      submitted := [], recorded := [] }

/-! ## RelayManager.waitForConnections (relay-manager.js) -/

/-- One JSON-RPC call issued by the verification loop, tagged with the side
it was sent to. -/
inductive RpcCall
  | sourceCall (method : String)
  | targetCall (method : String)
  deriving Repr, DecidableEq

/-- The environment of one waitForConnections call.  elapsedAt k is
Date.now() - start as read by the loop guard before iteration k; the other
oracles give, per iteration, whether the eth_blockNumber probe resolves and
what eth_chainId resolves to (none meaning the call throws). -/
structure WaitEnv where
  timeout : Nat
  maxAttempts : Nat
  sourceChainIdExpected : Nat
  elapsedAt : Nat → Nat
  srcBlockNumberOk : Nat → Bool
  srcChainIdAt : Nat → Option Nat
  tgtBlockNumberOk : Nat → Bool
  tgtChainIdAt : Nat → Option Nat

/-- Whether polling the source endpoint at iteration k verifies it: the
liveness probe must answer and the reported chain id must equal the
configured expected chain id (config.sourceNetwork.chainId). -/
def srcMatch (env : WaitEnv) (k : Nat) : Bool :=
  env.srcBlockNumberOk k && (env.srcChainIdAt k == some env.sourceChainIdExpected)

/-- Whether polling the target endpoint at iteration k verifies it: the
liveness probe must answer and the reported chain id must equal 1 (the
source hardcodes Ethereum mainnet as the expected target chain, matching
config.ethereum.chainId = 1). -/
def tgtMatch (env : WaitEnv) (k : Nat) : Bool :=
  env.tgtBlockNumberOk k && (env.tgtChainIdAt k == some 1)

/-- The RPC calls one source poll issues at iteration k: always the liveness
probe, then the chain-id query only if the probe resolved. -/
def srcPollCalls (env : WaitEnv) (k : Nat) : List (Nat × RpcCall) :=
  (k, RpcCall.sourceCall "eth_blockNumber") ::
    (if env.srcBlockNumberOk k then [(k, RpcCall.sourceCall "eth_chainId")]
     else [])

/-- The RPC calls one target poll issues at iteration k. -/
def tgtPollCalls (env : WaitEnv) (k : Nat) : List (Nat × RpcCall) :=
  (k, RpcCall.targetCall "eth_blockNumber") ::
    (if env.tgtBlockNumberOk k then [(k, RpcCall.targetCall "eth_chainId")]
     else [])

/-- How waitForConnections ends: resolve true, or throw the connection
verification error whose message carries the two verification flags. -/
inductive WaitOutcome
  | verified
  | verificationTimeout (sourceVerified targetVerified : Bool)
  deriving Repr, DecidableEq

/-- The observable result of one waitForConnections call: how it ended, the
number of loop iterations executed (the attempts counter of the source), and
the trace of RPC calls issued, each tagged with its iteration. -/
structure WaitRun where
  outcome : WaitOutcome
  attempts : Nat
  calls : List (Nat × RpcCall)
  deriving DecidableEq

/-- The RPC calls one loop iteration issues, given the two sticky
verification flags at its start: each side is polled only while its flag is
still false, the source first. -/
def iterCalls (env : WaitEnv) (k : Nat) (sv tv : Bool) :
    List (Nat × RpcCall) :=
  (if sv then [] else srcPollCalls env k) ++
    (if tv then [] else tgtPollCalls env k)

/-- The polling loop of waitForConnections.  k is both the iteration index
and the value the attempts counter reaches during that iteration; sv and tv
are the sticky sourceVerified / targetVerified flags: a side is polled only
while its flag is false, and the loop returns verified as soon as both flags
are set in the same iteration.  When the guard (wall clock below timeout and
attempts below maxAttempts) fails, the error carrying the current flags is
thrown. -/
def waitLoop (env : WaitEnv) :
    Nat → Nat → Bool → Bool → List (Nat × RpcCall) → WaitRun
  | 0, k, sv, tv, acc =>
    { outcome := WaitOutcome.verificationTimeout sv tv, attempts := k,
      calls := acc }
  | fuel + 1, k, sv, tv, acc =>
    if env.elapsedAt k < env.timeout ∧ k < env.maxAttempts then
      if (sv || srcMatch env k) && (tv || tgtMatch env k) then
        { outcome := WaitOutcome.verified, attempts := k + 1,
          calls := acc ++ iterCalls env k sv tv }
      else
        waitLoop env fuel (k + 1) (sv || srcMatch env k)
          (tv || tgtMatch env k) (acc ++ iterCalls env k sv tv)
    else
      { outcome := WaitOutcome.verificationTimeout sv tv, attempts := k,
        calls := acc }

/-- RelayManager.waitForConnections: after the initial settle delay, run the
polling loop from iteration 0 with both flags unset.  The loop executes at
most maxAttempts iterations, so maxAttempts + 1 units of fuel always
suffice. -/
def waitForConnections (env : WaitEnv) : WaitRun :=
  waitLoop env (env.maxAttempts + 1) 0 false false []

/-! ## Concrete scenarios used by counterexamples and witnesses -/

/-- A provider on which every source transaction lookup succeeds. -/
def pAll : String → Bool := fun _ => true

/-- A target on which every submission attempt fails. -/
def oFail : Nat → Bool := fun _ => false

/-- A target on which every submission attempt succeeds. -/
def oSucc : Nat → Bool := fun _ => true

/-- Relaying a permanently failing transaction 0xaaa from a fresh manager. -/
def relayC1r1 : RelayState := relayTransactionRun pAll oFail relayS0 "0xaaa"

/-- Then relaying a second failing transaction 0xbbb. -/
def relayC1r2 : RelayState := relayTransactionRun pAll oFail relayC1r1 "0xbbb"

/-- Then relaying 0xaaa once more, after its earlier exhaustion. -/
def relayC1r3 : RelayState := relayTransactionRun pAll oFail relayC1r2 "0xaaa"

/-- Relaying transaction 0xabc successfully from a fresh manager. -/
def relayC2r1 : RelayState := relayTransactionRun pAll oSucc relayS0 "0xabc"

/-- Relaying the same source hash 0xabc a second time after its success. -/
def relayC2r2 : RelayState := relayTransactionRun pAll oSucc relayC2r1 "0xabc"

/-- The simulator after producing block 1 (one transaction, generated at
Date.now() = 1000). -/
def c3s1 : MockProviderState := (mpInit.blockTick 1000 1).1

/-- The simulator after then producing block 2 (one transaction, generated at
Date.now() = 6000). -/
def c3s2 : MockProviderState := (c3s1.blockTick 6000 1).1

/-- First mock transaction generated at Date.now() = 1000. -/
def c6gen1 : MockProviderState × MockTx := mpInit.generateMockTransaction 1000

/-- Second mock transaction generated within the same millisecond
(Date.now() = 1000 again), as happens for the 1-3 transactions synthesized
inside a single block-production tick. -/
def c6gen2 : MockProviderState × MockTx :=
  c6gen1.1.generateMockTransaction 1000

/-- A MainnetRelay attempt environment on the legacy (non-EIP1559) path whose
gas price (200 gwei) always exceeds the 100 gwei ceiling. -/
def gasEnv0 : MainnetAttemptEnv :=
  { hasEip1559 := false
    gasPriceAt := fun _ => 200000000000
    maxGasPrice := 100000000000
    sendOk := fun _ => true
    receiptStatusOk := fun _ => true }

/-- A verification environment in which the target reports chain id 1
immediately but the source reports the wrong chain id (1 instead of the
expected 138) at iteration 0 and the right one from iteration 1 on. -/
def envW1 : WaitEnv :=
  { timeout := 30000, maxAttempts := 5, sourceChainIdExpected := 138,
    elapsedAt := fun k => 3000 + 2000 * k,
    srcBlockNumberOk := fun _ => true,
    srcChainIdAt := fun k => if k = 0 then some 1 else some 138,
    tgtBlockNumberOk := fun _ => true,
    tgtChainIdAt := fun _ => some 1 }

/-- A verification environment in which the target verifies immediately but
the source never reports the expected chain id, so all 5 attempts are used
and the verification error is thrown. -/
def envW2 : WaitEnv :=
  { timeout := 30000, maxAttempts := 5, sourceChainIdExpected := 138,
    elapsedAt := fun k => 3000 + 2000 * k,
    srcBlockNumberOk := fun _ => true,
    srcChainIdAt := fun _ => some 1,
    tgtBlockNumberOk := fun _ => true,
    tgtChainIdAt := fun _ => some 1 }

/-- Monitor state after the 1st..5th reconnection handling. -/
def monRec1 : MonitorState := (handleReconnection monitorInit).1

/-- Monitor state after the 2nd reconnection handling. -/
def monRec2 : MonitorState := (handleReconnection monRec1).1

/-- Monitor state after the 3rd reconnection handling. -/
def monRec3 : MonitorState := (handleReconnection monRec2).1

/-- Monitor state after the 4th reconnection handling. -/
def monRec4 : MonitorState := (handleReconnection monRec3).1

/-- Monitor state after the 5th reconnection handling. -/
def monRec5 : MonitorState := (handleReconnection monRec4).1

/-- An orchestrator that has already seen 100 disconnections. -/
def orchMany : OrchestratorState :=
  { metrics := { transactions := 0, successful := 0, failed := 0,
                 retries := 0, disconnections := 100 },
    connectionState := { source := true, target := true } }

/-! ## Theorems -/

/-- Generating transactions never changes the block height. -/
theorem genTxs_blockNumber (n : Nat) (s : MockProviderState) (now : Nat) :
    (genTxs s now n).blockNumber = s.blockNumber := by
  induction n generalizing s with
  | zero => rfl
  | succ n ih =>
    rw [genTxs, ih]
    rfl

/-- One production tick emits the incremented block number and leaves the
state at that height. -/
theorem blockTick_spec (s : MockProviderState) (now c : Nat) :
    (s.blockTick now c).2 = s.blockNumber + 1 ∧
    (s.blockTick now c).1.blockNumber = s.blockNumber + 1 := by
  unfold MockProviderState.blockTick
  simp [genTxs_blockNumber]

/-- C8: block numbers emitted by the chain simulator within one run are
exactly the consecutive integers starting one above the initial height: for
any initial state and any sequence of timer ticks (whatever Date.now() reads
and random transaction counts they see), the emitted block numbers form the
list initialHeight + 1, initialHeight + 2, ..., so every block's number is
exactly the previous block's number plus 1. -/
theorem C8_block_numbers_consecutive (s : MockProviderState)
    (inputs : List (Nat × Nat)) :
    (runTicks s inputs).2 = List.range' (s.blockNumber + 1) inputs.length := by
  induction inputs generalizing s with
  | nil => rfl
  | cons hd tl ih =>
    obtain ⟨now, c⟩ := hd
    show ((s.blockTick now c).2 :: (runTicks (s.blockTick now c).1 tl).2) =
      List.range' (s.blockNumber + 1) (tl.length + 1)
    rw [List.range'_succ, ih, (blockTick_spec s now c).1,
      (blockTick_spec s now c).2]

/-- C3 (amended): the simulator's getBlock ignores which block was asked
for — it always reports the provider's current block height as the number
and the keys of the entire transaction store as the transaction list, so
two queries for the same block number made at different states can return
different contents. -/
theorem C3_getBlock_ignores_argument (s : MockProviderState) (now a b : Nat) :
    s.getBlock now a = s.getBlock now b ∧
    (s.getBlock now a).number = s.blockNumber ∧
    (s.getBlock now a).transactions = s.transactions.map Prod.fst :=
  ⟨rfl, rfl, rfl⟩

/-- C3 counterexample: after the simulator has produced block 1 (one
transaction, at t = 1000 ms) and then block 2 (one transaction, at
t = 6000 ms), asking getBlock for block 1 returns number = 2, not 1, and a
transaction list containing both transactions; in particular querying block
1 before and after block 2 was produced returns different contents, so the
claim that get-block-by-number returns the immutable block numbered n is
false at n = 1. -/
theorem C3_counterexample :
    (c3s2.getBlock 7000 1).number = 2 ∧
    ¬((c3s2.getBlock 7000 1).number = 1) ∧
    ¬(c3s1.getBlock 2000 1 = c3s2.getBlock 7000 1) ∧
    (c3s2.getBlock 7000 1).transactions.length = 2 := by
  refine ⟨by decide, by decide, by decide, by decide⟩

/-- C6: the uniqueness claim for synthesized transaction hashes fails in the
code.  The hash is derived solely from Date.now(), so two transactions
generated within the same millisecond — as the 1-3 transactions synthesized
synchronously inside one block-production tick are — receive the same hash:
here two generateMockTransaction calls at t = 1000 produce distinct
transactions (their nonces differ) with identical hashes, and the second
Map.set overwrites the first, leaving a store of size 1 instead of 2. -/
theorem C6_hash_collision_within_tick :
    c6gen2.2.hash = c6gen1.2.hash ∧
    ¬(c6gen2.2 = c6gen1.2) ∧
    c6gen2.1.transactions.length = 1 := by
  refine ⟨by decide, by decide, by decide⟩

/-- C10: MockWebSocketProvider.connect counts every completed call against
the ceiling, including successful ones, and only disconnect resets the
counter: any successful connect leaves the counter at its predecessor plus
one; from a fresh provider (ceiling 3) three connect calls succeed, taking
the counter to 1, 2, 3, and a fourth call throws Max connection attempts
reached; disconnect resets the counter to 0. -/
theorem C10_connect_counts_successes (s t u : MockWSState)
    (h3 : s.maxRetries = 3) (h0 : s.connectionAttempts = 0)
    (htu : t.connect = Except.ok u) :
    (u.connectionAttempts = t.connectionAttempts + 1 ∧ u.connected = true) ∧
    t.disconnect.connectionAttempts = 0 ∧
    s.connect =
      Except.ok { s with connectionAttempts := 1, connected := true } ∧
    MockWSState.connect { s with connectionAttempts := 1, connected := true } =
      Except.ok { s with connectionAttempts := 2, connected := true } ∧
    MockWSState.connect { s with connectionAttempts := 2, connected := true } =
      Except.ok { s with connectionAttempts := 3, connected := true } ∧
    MockWSState.connect { s with connectionAttempts := 3, connected := true } =
      Except.error "Max connection attempts reached" := by
  refine ⟨?_, rfl, ?_, ?_, ?_, ?_⟩
  · unfold MockWSState.connect at htu
    split at htu
    · exact absurd htu (by simp)
    · simp only [Except.ok.injEq] at htu
      subst htu
      exact ⟨rfl, rfl⟩
  · simp [MockWSState.connect, h3, h0]
  · simp [MockWSState.connect, h3]
  · simp [MockWSState.connect, h3]
  · simp [MockWSState.connect, h3]

/-- C10 witness: the scenario of the theorem evaluated on a freshly
constructed provider. -/
theorem C10_witness :
    (MockWSState.connectionAttempts
        { wsInit with connectionAttempts := 2, connected := true } =
      MockWSState.connectionAttempts
        { wsInit with connectionAttempts := 1, connected := true } + 1) ∧
    wsInit.disconnect.connectionAttempts = 0 ∧
    wsInit.connect =
      Except.ok { wsInit with connectionAttempts := 1, connected := true } ∧
    MockWSState.connect { wsInit with connectionAttempts := 1, connected := true } =
      Except.ok { wsInit with connectionAttempts := 2, connected := true } ∧
    MockWSState.connect { wsInit with connectionAttempts := 2, connected := true } =
      Except.ok { wsInit with connectionAttempts := 3, connected := true } ∧
    MockWSState.connect { wsInit with connectionAttempts := 3, connected := true } =
      Except.error "Max connection attempts reached" := by
  have h := C10_connect_counts_successes wsInit
    { wsInit with connectionAttempts := 1, connected := true }
    { wsInit with connectionAttempts := 2, connected := true }
    rfl rfl rfl
  exact ⟨h.1.1, h.2.1, h.2.2.1, h.2.2.2.1, h.2.2.2.2.1, h.2.2.2.2.2⟩

/-- C7 counterexample: the claimed reconnection behaviour is false in the
code.  The relay orchestrator's disconnect handler reconnects immediately
(delay 0) and has no attempt ceiling of its own — after 100 disconnections
it still just increments the counter and reconnects at once — and the
exponential backoff that does exist (TransactionMonitor) schedules its
first retry after 2000 ms, not the claimed 1000 ms, because the delay is
doubled before its first use. -/
theorem C7_counterexample :
    (handleReconnection monitorInit).2 = ReconnectStep.scheduled 1 2000 ∧
    ¬((handleReconnection monitorInit).2 = ReconnectStep.scheduled 1 1000) ∧
    (handleDisconnect orchInit NetworkSide.source).2 = 0 ∧
    (handleDisconnect orchInit NetworkSide.source).1.metrics.disconnections
      = 1 ∧
    (handleDisconnect orchMany NetworkSide.source).2 = 0 ∧
    (handleDisconnect orchMany NetworkSide.source).1.metrics.disconnections
      = 101 := by
  refine ⟨by decide, by decide, by decide, by decide, by decide, by decide⟩

/-- C7 (amended): on a disconnect event the relay orchestrator increments
the disconnection counter by exactly 1 and immediately re-invokes connect
with no backoff delay and no attempt ceiling; doubling backoff with a
5-attempt ceiling that stops the component exists only in
TransactionMonitor.handleReconnection, whose successive scheduled delays
from a fresh monitor are 2000, 4000, 8000, 16000 and 32000 ms (the 1000 ms
base is doubled before first use), after which the monitor stops itself. -/
theorem C7_disconnect_and_backoff (o : OrchestratorState)
    (side : NetworkSide) (m : MonitorState)
    (hm : m.reconnectAttempts < m.maxReconnectAttempts) :
    (handleDisconnect o side).1.metrics.disconnections =
      o.metrics.disconnections + 1 ∧
    (handleDisconnect o side).2 = 0 ∧
    (handleReconnection m).1.reconnectAttempts = m.reconnectAttempts + 1 ∧
    (handleReconnection m).1.reconnectDelay = m.reconnectDelay * 2 ∧
    (handleReconnection m).2 =
      ReconnectStep.scheduled (m.reconnectAttempts + 1)
        (m.reconnectDelay * 2) ∧
    (handleReconnection
        { m with reconnectAttempts := m.maxReconnectAttempts }).2 =
      ReconnectStep.stopped ∧
    (handleReconnection
        { m with reconnectAttempts := m.maxReconnectAttempts }).1.isRunning =
      false ∧
    (handleReconnection monitorInit).2 = ReconnectStep.scheduled 1 2000 ∧
    (handleReconnection monRec1).2 = ReconnectStep.scheduled 2 4000 ∧
    (handleReconnection monRec2).2 = ReconnectStep.scheduled 3 8000 ∧
    (handleReconnection monRec3).2 = ReconnectStep.scheduled 4 16000 ∧
    (handleReconnection monRec4).2 = ReconnectStep.scheduled 5 32000 ∧
    (handleReconnection monRec5).2 = ReconnectStep.stopped := by
  refine ⟨?_, ?_, ?_, ?_, ?_, ?_, ?_, by decide, by decide, by decide,
    by decide, by decide, by decide⟩
  · cases side <;> rfl
  · cases side <;> rfl
  · simp only [handleReconnection, if_neg (not_le.mpr hm)]
  · simp only [handleReconnection, if_neg (not_le.mpr hm)]
  · simp only [handleReconnection, if_neg (not_le.mpr hm)]
  · simp [handleReconnection]
  · simp [handleReconnection]

/-- C7 witness: the amended behaviour evaluated on a fresh orchestrator and
a fresh monitor. -/
theorem C7_witness :
    (handleDisconnect orchInit NetworkSide.source).1.metrics.disconnections =
      orchInit.metrics.disconnections + 1 ∧
    (handleDisconnect orchInit NetworkSide.source).2 = 0 ∧
    (handleReconnection monitorInit).1.reconnectAttempts =
      monitorInit.reconnectAttempts + 1 ∧
    (handleReconnection monitorInit).1.reconnectDelay =
      monitorInit.reconnectDelay * 2 ∧
    (handleReconnection monitorInit).2 =
      ReconnectStep.scheduled (monitorInit.reconnectAttempts + 1)
        (monitorInit.reconnectDelay * 2) ∧
    (handleReconnection
        { monitorInit with
            reconnectAttempts := monitorInit.maxReconnectAttempts }).2 =
      ReconnectStep.stopped ∧
    (handleReconnection
        { monitorInit with
            reconnectAttempts := monitorInit.maxReconnectAttempts }).1.isRunning =
      false ∧
    (handleReconnection monitorInit).2 = ReconnectStep.scheduled 1 2000 ∧
    (handleReconnection monRec1).2 = ReconnectStep.scheduled 2 4000 ∧
    (handleReconnection monRec2).2 = ReconnectStep.scheduled 3 8000 ∧
    (handleReconnection monRec3).2 = ReconnectStep.scheduled 4 16000 ∧
    (handleReconnection monRec4).2 = ReconnectStep.scheduled 5 32000 ∧
    (handleReconnection monRec5).2 = ReconnectStep.stopped :=
  C7_disconnect_and_backoff orchInit NetworkSide.source monitorInit
    (by decide)

/-- C2 counterexample: the relay keeps no record per source hash and is not
idempotent.  From a fresh manager, relaying 0xabc succeeds (one submission,
metrics.successful = 1); calling relayTransaction again with the same
source hash after that success submits a second target transaction — the
submission trace becomes two entries for 0xabc — so the claim that the
second call must not resubmit is false. -/
theorem C2_counterexample :
    relayC2r1.metrics.successful = 1 ∧
    relayC2r1.submissions = ["0xabc"] ∧
    relayC2r2.submissions = ["0xabc", "0xabc"] ∧
    relayC2r2.metrics.transactions = 2 := by
  refine ⟨by decide, by decide, by decide, by decide⟩

/-- C2 (amended): RelayManager.relayTransaction keeps no per-sourceHash
record at all.  Whatever has happened before — including an earlier
successful relay of the same hash — every call whose source transaction is
retrievable and whose submission succeeds performs exactly one fresh target
submission, appending the hash to the submission trace and incrementing the
transaction and success counters. -/
theorem C2_relay_always_resubmits (s : RelayState) (txHash : String)
    (present : String → Bool) (outcome : Nat → Bool)
    (hp : present txHash = true)
    (ho : outcome s.submissions.length = true) :
    (relayTransactionRun present outcome s txHash).submissions =
      s.submissions ++ [txHash] ∧
    (relayTransactionRun present outcome s txHash).metrics.successful =
      s.metrics.successful + 1 ∧
    (relayTransactionRun present outcome s txHash).metrics.transactions =
      s.metrics.transactions + 1 := by
  unfold relayTransactionRun
  rw [relayTransaction]
  simp [hp, ho]

/-- C2 witness: the amended statement evaluated on a fresh manager for a
transaction that has already been relayed successfully once. -/
theorem C2_witness :
    (relayTransactionRun pAll oSucc relayC2r1 "0xabc").submissions =
      relayC2r1.submissions ++ ["0xabc"] ∧
    (relayTransactionRun pAll oSucc relayC2r1 "0xabc").metrics.successful =
      relayC2r1.metrics.successful + 1 ∧
    (relayTransactionRun pAll oSucc relayC2r1 "0xabc").metrics.transactions =
      relayC2r1.metrics.transactions + 1 :=
  C2_relay_always_resubmits relayC2r1 "0xabc" pAll oSucc rfl rfl

/-- C4 counterexample: with a legacy-path transaction whose target gas price
(200 gwei) exceeds the 100 gwei ceiling and maxRetries = 3, the relay never
calls submit — that part of the claim holds — but the attempt counter is
incremented to 1 (the claim says it must not be incremented) and no
GasCeilingExceeded outcome is recorded anywhere: the transaction store
stays empty and the caller sees an escaping ReferenceError instead of a
recorded policy outcome. -/
theorem C4_counterexample :
    mainnetRelayTransaction gasEnv0 3 =
      { kind := MainnetResultKind.refError, attempts := 1,
        submitted := [], recorded := [] } ∧
    ¬((mainnetRelayTransaction gasEnv0 3).attempts = 0) := by
  refine ⟨by decide, by decide⟩

/-- C4 (amended): on the legacy (non-EIP1559) path, a gas price above the
configured ceiling makes the attempt throw before wallet.sendTransaction is
reached, so submit is never called; but instead of recording a
GasCeilingExceeded outcome without touching the counter, the catch handler
increments the attempt counter to 1 and then itself crashes (it reads
sentTx, which is const-scoped inside the try block), so nothing is recorded
and the call ends with an escaping ReferenceError. -/
theorem C4_gas_ceiling_never_submits (env : MainnetAttemptEnv)
    (maxRetries : Nat) (hLegacy : env.hasEip1559 = false)
    (hGas : env.maxGasPrice < env.gasPriceAt 0) (hPos : 0 < maxRetries) :
    mainnetRelayTransaction env maxRetries =
      { kind := MainnetResultKind.refError, attempts := 1,
        submitted := [], recorded := [] } := by
  unfold mainnetRelayTransaction
  rw [if_pos hPos]
  have h : attemptAt env 0 = AttemptResult.gasRejected := by
    unfold attemptAt
    rw [if_pos ⟨hLegacy, hGas⟩]
  rw [h]

/-- C4 witness: the amended statement evaluated on the concrete
200-gwei-versus-100-gwei environment. -/
theorem C4_witness :
    mainnetRelayTransaction gasEnv0 3 =
      { kind := MainnetResultKind.refError, attempts := 1,
        submitted := [], recorded := [] } :=
  C4_gas_ceiling_never_submits gasEnv0 3 rfl (by decide) (by decide)

/-- When every submission fails and the source transaction is retrievable,
one relayTransaction call performs exactly 1 + (retryAttempts - retries)
submission attempts for its hash (the remaining global retry budget plus
the initial attempt), drives the global retries counter up to the ceiling,
and bumps the transaction and failure counters by the same amount. -/
theorem relayTransaction_allFail (present : String → Bool)
    (outcome : Nat → Bool) (txHash : String)
    (hp : present txHash = true) (ho : ∀ k, outcome k = false) :
    ∀ fuel (s : RelayState), 1 ≤ fuel →
    s.retryAttempts + 1 ≤ fuel + s.metrics.retries →
    (relayTransaction present outcome fuel s txHash).submissions =
      s.submissions ++
        List.replicate (1 + (s.retryAttempts - s.metrics.retries)) txHash ∧
    (relayTransaction present outcome fuel s txHash).metrics.retries =
      max s.metrics.retries s.retryAttempts ∧
    (relayTransaction present outcome fuel s txHash).retryAttempts =
      s.retryAttempts ∧
    (relayTransaction present outcome fuel s txHash).metrics.transactions =
      s.metrics.transactions + (1 + (s.retryAttempts - s.metrics.retries)) ∧
    (relayTransaction present outcome fuel s txHash).metrics.failed =
      s.metrics.failed + (1 + (s.retryAttempts - s.metrics.retries)) := by
  intro fuel
  induction fuel with
  | zero => intro s h1 _; exact absurd h1 (by omega)
  | succ fuel ih =>
    intro s _ hfuel
    rw [relayTransaction]
    simp only [hp, if_true, ho, Bool.false_eq_true, if_false,
      RelayState.shouldRetry]
    by_cases hr : s.metrics.retries < s.retryAttempts
    · simp only [hr, decide_True, if_true]
      have h1 : (1 : Nat) ≤ fuel := by omega
      have h2 := ih { s with
          metrics := { s.metrics with
            transactions := s.metrics.transactions + 1
            failed := s.metrics.failed + 1
            retries := s.metrics.retries + 1 }
          submissions := s.submissions ++ [txHash] } h1 (by simp; omega)
      simp only at h2
      obtain ⟨e1, e2, e3, e4, e5⟩ := h2
      refine ⟨?_, ?_, ?_, ?_, ?_⟩
      · rw [e1]
        have hrep : List.replicate
            (1 + (s.retryAttempts - (s.metrics.retries + 1))) txHash =
            List.replicate (s.retryAttempts - s.metrics.retries) txHash := by
          congr 1
          omega
        rw [hrep, List.append_assoc]
        congr 1
        have : 1 + (s.retryAttempts - s.metrics.retries) =
            (s.retryAttempts - s.metrics.retries) + 1 := by omega
        rw [this, List.replicate_succ]
        rfl
      · rw [e2]; omega
      · rw [e3]
      · rw [e4]; omega
      · rw [e5]; omega
    · simp only [hr, decide_False, Bool.false_eq_true, if_false]
      have hz : s.retryAttempts - s.metrics.retries = 0 := by omega
      have hm : max s.metrics.retries s.retryAttempts = s.metrics.retries := by
        omega
      simp [hz, hm]

/-- C1 counterexample: the retry budget is global, not per source hash, and
nothing is ever marked permanently failed.  With the configured ceiling 3,
a first always-failing transaction 0xaaa consumes the whole budget (4
submission attempts, global retries = 3); a second always-failing
transaction 0xbbb then receives exactly 1 submission attempt and no retry
at all — not its own ceiling of retries — and a later call for the
already-exhausted 0xaaa submits it again (5th attempt), so it was neither
marked permanentFailure nor protected from further attempts. -/
theorem C1_counterexample :
    relayC1r1.submissions.count "0xaaa" = 4 ∧
    relayC1r1.metrics.retries = 3 ∧
    relayC1r2.submissions.count "0xbbb" = 1 ∧
    relayC1r2.retryAttempts = 3 ∧
    relayC1r3.submissions.count "0xaaa" = 5 := by
  refine ⟨by decide, by decide, by decide, by decide, by decide⟩

/-- C1 (amended): the retry decision compares the single global
metrics.retries counter with the configured ceiling and ignores which
transaction is being relayed.  A call for a retrievable, always-failing
source transaction performs 1 + (retryAttempts - retries) submission
attempts — the remaining global budget, shared across all source hashes —
and leaves the global counter at the ceiling; there is no permanentFailure
marking, so a further call for the same hash still submits it once more. -/
theorem C1_retry_budget_is_global (s : RelayState)
    (txHash t1 t2 : String) (present : String → Bool) (outcome : Nat → Bool)
    (hp : present txHash = true) (ho : ∀ k, outcome k = false) :
    (relayTransactionRun present outcome s txHash).submissions =
      s.submissions ++
        List.replicate (1 + (s.retryAttempts - s.metrics.retries)) txHash ∧
    (relayTransactionRun present outcome s txHash).metrics.retries =
      max s.metrics.retries s.retryAttempts ∧
    (relayTransactionRun present outcome s txHash).retryAttempts =
      s.retryAttempts ∧
    (relayTransactionRun present outcome
        (relayTransactionRun present outcome s txHash) txHash).submissions.length =
      (relayTransactionRun present outcome s txHash).submissions.length + 1 ∧
    s.shouldRetry t1 = s.shouldRetry t2 := by
  have h := relayTransaction_allFail present outcome txHash hp ho
    (s.retryAttempts + 1) s (by omega) (by omega)
  have h2 := relayTransaction_allFail present outcome txHash hp ho
    ((relayTransactionRun present outcome s txHash).retryAttempts + 1)
    (relayTransactionRun present outcome s txHash) (by omega) (by omega)
  refine ⟨h.1, h.2.1, h.2.2.1, ?_, rfl⟩
  have hz : (relayTransaction present outcome (s.retryAttempts + 1) s
        txHash).retryAttempts -
      (relayTransaction present outcome (s.retryAttempts + 1) s
        txHash).metrics.retries = 0 := by
    have e2 := h.2.1
    have e3 := h.2.2.1
    omega
  unfold relayTransactionRun at h2 ⊢
  rw [h2.1, hz]
  simp

/-- C1 witness: the amended statement evaluated on a fresh manager with
ceiling 3 and an always-failing submission path. -/
theorem C1_witness :
    (relayTransactionRun pAll oFail relayS0 "0xaaa").submissions =
      relayS0.submissions ++
        List.replicate
          (1 + (relayS0.retryAttempts - relayS0.metrics.retries)) "0xaaa" ∧
    (relayTransactionRun pAll oFail relayS0 "0xaaa").metrics.retries =
      max relayS0.metrics.retries relayS0.retryAttempts ∧
    (relayTransactionRun pAll oFail relayS0 "0xaaa").retryAttempts =
      relayS0.retryAttempts ∧
    (relayTransactionRun pAll oFail
        (relayTransactionRun pAll oFail relayS0 "0xaaa") "0xaaa").submissions.length =
      (relayTransactionRun pAll oFail relayS0 "0xaaa").submissions.length + 1 ∧
    relayS0.shouldRetry "0xbbb" = relayS0.shouldRetry "0xccc" :=
  C1_retry_budget_is_global relayS0 "0xaaa" "0xbbb" "0xccc" pAll oFail rfl
    (fun _ => rfl)

/-- Characterization of when the polling loop resolves true: starting at
iteration k with sticky flags sv and tv, it returns verified exactly when
some iteration j within the attempt ceiling is reached with the wall clock
below the timeout at every iteration up to j, and each side is either
already verified or reports a chain-id match at some iteration up to j. -/
theorem waitLoop_verified_iff (env : WaitEnv) :
    ∀ fuel k sv tv acc, env.maxAttempts + 1 ≤ fuel + k →
    ((waitLoop env fuel k sv tv acc).outcome = WaitOutcome.verified ↔
      ∃ j, k ≤ j ∧ j < env.maxAttempts ∧
        (∀ i, k ≤ i → i ≤ j → env.elapsedAt i < env.timeout) ∧
        (sv = true ∨ ∃ i, k ≤ i ∧ i ≤ j ∧ srcMatch env i = true) ∧
        (tv = true ∨ ∃ i, k ≤ i ∧ i ≤ j ∧ tgtMatch env i = true)) := by
  intro fuel
  induction fuel with
  | zero =>
    intro k sv tv acc hk
    rw [waitLoop]
    constructor
    · intro h
      exact absurd h (by simp)
    · rintro ⟨j, hkj, hjm, -, -, -⟩
      exact absurd hjm (by omega)
  | succ fuel ih =>
    intro k sv tv acc hk
    rw [waitLoop]
    by_cases hg : env.elapsedAt k < env.timeout ∧ k < env.maxAttempts
    · rw [if_pos hg]
      by_cases hb : ((sv || srcMatch env k) && (tv || tgtMatch env k)) = true
      · rw [if_pos hb]
        rw [Bool.and_eq_true, Bool.or_eq_true, Bool.or_eq_true] at hb
        refine iff_of_true rfl ⟨k, le_refl k, hg.2, ?_, ?_, ?_⟩
        · intro i hki hik
          have : i = k := le_antisymm hik hki
          rw [this]
          exact hg.1
        · rcases hb.1 with h | h
          · exact Or.inl h
          · exact Or.inr ⟨k, le_refl k, le_refl k, h⟩
        · rcases hb.2 with h | h
          · exact Or.inl h
          · exact Or.inr ⟨k, le_refl k, le_refl k, h⟩
      · rw [if_neg hb]
        rw [ih (k + 1) (sv || srcMatch env k) (tv || tgtMatch env k)
          (acc ++ iterCalls env k sv tv) (by omega)]
        constructor
        · rintro ⟨j, hk1j, hjm, helap, hsrc, htgt⟩
          refine ⟨j, by omega, hjm, ?_, ?_, ?_⟩
          · intro i hki hij
            by_cases hik : i = k
            · rw [hik]; exact hg.1
            · exact helap i (by omega) hij
          · rcases hsrc with h | ⟨i, hi1, hij, hm⟩
            · rw [Bool.or_eq_true] at h
              rcases h with h | h
              · exact Or.inl h
              · exact Or.inr ⟨k, le_refl k, by omega, h⟩
            · exact Or.inr ⟨i, by omega, hij, hm⟩
          · rcases htgt with h | ⟨i, hi1, hij, hm⟩
            · rw [Bool.or_eq_true] at h
              rcases h with h | h
              · exact Or.inl h
              · exact Or.inr ⟨k, le_refl k, by omega, h⟩
            · exact Or.inr ⟨i, by omega, hij, hm⟩
        · rintro ⟨j, hkj, hjm, helap, hsrc, htgt⟩
          have hj : k + 1 ≤ j := by
            by_contra hlt
            have hjk : j = k := by omega
            subst hjk
            apply hb
            rw [Bool.and_eq_true, Bool.or_eq_true, Bool.or_eq_true]
            constructor
            · rcases hsrc with h | ⟨i, hji, hij, hm⟩
              · exact Or.inl h
              · have : i = j := le_antisymm hij hji
                rw [← this]
                exact Or.inr hm
            · rcases htgt with h | ⟨i, hji, hij, hm⟩
              · exact Or.inl h
              · have : i = j := le_antisymm hij hji
                rw [← this]
                exact Or.inr hm
          refine ⟨j, hj, hjm, (fun i h1 h2 => helap i (by omega) h2),
            ?_, ?_⟩
          · rcases hsrc with h | ⟨i, hki, hij, hm⟩
            · exact Or.inl (by rw [Bool.or_eq_true]; exact Or.inl h)
            · by_cases hik : i = k
              · rw [hik] at hm
                exact Or.inl (by rw [Bool.or_eq_true]; exact Or.inr hm)
              · exact Or.inr ⟨i, by omega, hij, hm⟩
          · rcases htgt with h | ⟨i, hki, hij, hm⟩
            · exact Or.inl (by rw [Bool.or_eq_true]; exact Or.inl h)
            · by_cases hik : i = k
              · rw [hik] at hm
                exact Or.inl (by rw [Bool.or_eq_true]; exact Or.inr hm)
              · exact Or.inr ⟨i, by omega, hij, hm⟩
    · rw [if_neg hg]
      constructor
      · intro h
        exact absurd h (by simp)
      · rintro ⟨j, hkj, hjm, helap, -, -⟩
        exact (hg ⟨helap k (le_refl k) hkj, by omega⟩).elim

/-- Characterization of the thrown verification error: when the polling loop
throws, the flags carried by the error record exactly whether each side
reported a chain-id match at some executed iteration (attempts is the index
one past the last executed iteration), and the two flags are never both
true (that would have resolved the call instead). -/
theorem waitLoop_timeout_char (env : WaitEnv) :
    ∀ fuel k sv tv acc, env.maxAttempts + 1 ≤ fuel + k →
    ∀ sv0 tv0,
    (waitLoop env fuel k sv tv acc).outcome =
      WaitOutcome.verificationTimeout sv0 tv0 →
    k ≤ (waitLoop env fuel k sv tv acc).attempts ∧
    (sv0 = true ↔ (sv = true ∨ ∃ i, k ≤ i ∧
        i < (waitLoop env fuel k sv tv acc).attempts ∧
        srcMatch env i = true)) ∧
    (tv0 = true ↔ (tv = true ∨ ∃ i, k ≤ i ∧
        i < (waitLoop env fuel k sv tv acc).attempts ∧
        tgtMatch env i = true)) ∧
    (¬(sv = true ∧ tv = true) → ¬(sv0 = true ∧ tv0 = true)) := by
  intro fuel
  induction fuel with
  | zero =>
    intro k sv tv acc hk sv0 tv0 h
    rw [waitLoop] at h ⊢
    dsimp only at h ⊢
    injection h with h1 h2
    subst h1
    subst h2
    refine ⟨le_refl k, ?_, ?_, fun hne hcon => hne hcon⟩
    · constructor
      · exact fun h0 => Or.inl h0
      · rintro (h0 | ⟨i, hki, hik, -⟩)
        · exact h0
        · exact absurd hik (by omega)
    · constructor
      · exact fun h0 => Or.inl h0
      · rintro (h0 | ⟨i, hki, hik, -⟩)
        · exact h0
        · exact absurd hik (by omega)
  | succ fuel ih =>
    intro k sv tv acc hk sv0 tv0 h
    rw [waitLoop] at h ⊢
    by_cases hg : env.elapsedAt k < env.timeout ∧ k < env.maxAttempts
    · rw [if_pos hg] at h ⊢
      by_cases hb : ((sv || srcMatch env k) && (tv || tgtMatch env k)) = true
      · rw [if_pos hb] at h
        exact absurd h (by simp)
      · rw [if_neg hb] at h ⊢
        obtain ⟨ha, hsv, htv, hex⟩ := ih (k + 1) (sv || srcMatch env k)
          (tv || tgtMatch env k) (acc ++ iterCalls env k sv tv)
          (by omega) sv0 tv0 h
        refine ⟨by omega, ?_, ?_, ?_⟩
        · constructor
          · intro h0
            rcases hsv.mp h0 with h1 | ⟨i, h1, h2, h3⟩
            · rw [Bool.or_eq_true] at h1
              rcases h1 with h1 | h1
              · exact Or.inl h1
              · exact Or.inr ⟨k, le_refl k, by omega, h1⟩
            · exact Or.inr ⟨i, by omega, h2, h3⟩
          · intro h0
            apply hsv.mpr
            rcases h0 with h1 | ⟨i, h1, h2, h3⟩
            · exact Or.inl (by rw [Bool.or_eq_true]; exact Or.inl h1)
            · by_cases hik : i = k
              · rw [hik] at h3
                exact Or.inl (by rw [Bool.or_eq_true]; exact Or.inr h3)
              · exact Or.inr ⟨i, by omega, h2, h3⟩
        · constructor
          · intro h0
            rcases htv.mp h0 with h1 | ⟨i, h1, h2, h3⟩
            · rw [Bool.or_eq_true] at h1
              rcases h1 with h1 | h1
              · exact Or.inl h1
              · exact Or.inr ⟨k, le_refl k, by omega, h1⟩
            · exact Or.inr ⟨i, by omega, h2, h3⟩
          · intro h0
            apply htv.mpr
            rcases h0 with h1 | ⟨i, h1, h2, h3⟩
            · exact Or.inl (by rw [Bool.or_eq_true]; exact Or.inl h1)
            · by_cases hik : i = k
              · rw [hik] at h3
                exact Or.inl (by rw [Bool.or_eq_true]; exact Or.inr h3)
              · exact Or.inr ⟨i, by omega, h2, h3⟩
        · intro _
          exact hex (fun hcon => hb (by rw [Bool.and_eq_true]; exact hcon))
    · rw [if_neg hg] at h ⊢
      dsimp only at h ⊢
      injection h with h1 h2
      subst h1
      subst h2
      refine ⟨le_refl k, ?_, ?_, fun hne hcon => hne hcon⟩
      · constructor
        · exact fun h0 => Or.inl h0
        · rintro (h0 | ⟨i, hki, hik, -⟩)
          · exact h0
          · exact absurd hik (by omega)
      · constructor
        · exact fun h0 => Or.inl h0
        · rintro (h0 | ⟨i, hki, hik, -⟩)
          · exact h0
          · exact absurd hik (by omega)

/-- Every RPC call a source poll records is addressed to the source and
tagged with the poll's iteration. -/
theorem mem_srcPollCalls (env : WaitEnv) (k : Nat) (p : Nat × RpcCall)
    (h : p ∈ srcPollCalls env k) : ∃ m, p = (k, RpcCall.sourceCall m) := by
  unfold srcPollCalls at h
  rw [List.mem_cons] at h
  rcases h with h | h
  · exact ⟨"eth_blockNumber", h⟩
  · by_cases hb : env.srcBlockNumberOk k = true
    · rw [if_pos hb, List.mem_singleton] at h
      exact ⟨"eth_chainId", h⟩
    · rw [if_neg hb] at h
      exact absurd h (List.not_mem_nil p)

/-- Every RPC call a target poll records is addressed to the target and
tagged with the poll's iteration. -/
theorem mem_tgtPollCalls (env : WaitEnv) (k : Nat) (p : Nat × RpcCall)
    (h : p ∈ tgtPollCalls env k) : ∃ m, p = (k, RpcCall.targetCall m) := by
  unfold tgtPollCalls at h
  rw [List.mem_cons] at h
  rcases h with h | h
  · exact ⟨"eth_blockNumber", h⟩
  · by_cases hb : env.tgtBlockNumberOk k = true
    · rw [if_pos hb, List.mem_singleton] at h
      exact ⟨"eth_chainId", h⟩
    · rw [if_neg hb] at h
      exact absurd h (List.not_mem_nil p)

/-- The calls one iteration records: source calls only while the source flag
is down, target calls only while the target flag is down, all tagged k. -/
theorem mem_iterCalls (env : WaitEnv) (k : Nat) (sv tv : Bool)
    (p : Nat × RpcCall) (h : p ∈ iterCalls env k sv tv) :
    (∃ m, p = (k, RpcCall.sourceCall m) ∧ sv = false) ∨
    (∃ m, p = (k, RpcCall.targetCall m) ∧ tv = false) := by
  unfold iterCalls at h
  rw [List.mem_append] at h
  rcases h with h | h
  · by_cases hs : sv = true
    · rw [if_pos hs] at h
      exact absurd h (List.not_mem_nil p)
    · rw [if_neg hs] at h
      obtain ⟨m, hm⟩ := mem_srcPollCalls env k p h
      exact Or.inl ⟨m, hm, Bool.eq_false_iff.mpr hs⟩
  · by_cases ht : tv = true
    · rw [if_pos ht] at h
      exact absurd h (List.not_mem_nil p)
    · rw [if_neg ht] at h
      obtain ⟨m, hm⟩ := mem_tgtPollCalls env k p h
      exact Or.inr ⟨m, hm, Bool.eq_false_iff.mpr ht⟩

/-- Trace invariant of the polling loop: provided the accumulated trace and
the flags are consistent with the history so far, every source (resp.
target) call in the final trace is tagged with an iteration before which
that side had never reported a chain-id match — i.e. a side that has
matched is never polled again. -/
theorem waitLoop_calls_inv (env : WaitEnv) :
    ∀ fuel k sv tv acc,
    (sv = false → ∀ i, i < k → srcMatch env i = false) →
    (tv = false → ∀ i, i < k → tgtMatch env i = false) →
    (∀ j c, (j, c) ∈ acc → j < k) →
    (∀ j m, (j, RpcCall.sourceCall m) ∈ acc →
      ∀ i, i < j → srcMatch env i = false) →
    (∀ j m, (j, RpcCall.targetCall m) ∈ acc →
      ∀ i, i < j → tgtMatch env i = false) →
    (∀ j m, (j, RpcCall.sourceCall m) ∈ (waitLoop env fuel k sv tv acc).calls →
      ∀ i, i < j → srcMatch env i = false) ∧
    (∀ j m, (j, RpcCall.targetCall m) ∈ (waitLoop env fuel k sv tv acc).calls →
      ∀ i, i < j → tgtMatch env i = false) := by
  intro fuel
  induction fuel with
  | zero =>
    intro k sv tv acc _ _ _ h4 h5
    rw [waitLoop]
    exact ⟨h4, h5⟩
  | succ fuel ih =>
    intro k sv tv acc h1 h2 h3 h4 h5
    rw [waitLoop]
    by_cases hg : env.elapsedAt k < env.timeout ∧ k < env.maxAttempts
    · rw [if_pos hg]
      have h3' : ∀ j c, (j, c) ∈ acc ++ iterCalls env k sv tv → j < k + 1 := by
        intro j c hm
        rw [List.mem_append] at hm
        rcases hm with hm | hm
        · exact Nat.lt_succ_of_lt (h3 j c hm)
        · rcases mem_iterCalls env k sv tv (j, c) hm with ⟨m, he, -⟩ | ⟨m, he, -⟩
          · rw [Prod.mk.injEq] at he
            omega
          · rw [Prod.mk.injEq] at he
            omega
      have h4' : ∀ j m, (j, RpcCall.sourceCall m) ∈ acc ++ iterCalls env k sv tv →
          ∀ i, i < j → srcMatch env i = false := by
        intro j m hm i hij
        rw [List.mem_append] at hm
        rcases hm with hm | hm
        · exact h4 j m hm i hij
        · rcases mem_iterCalls env k sv tv (j, RpcCall.sourceCall m) hm with
            ⟨m', he, hsf⟩ | ⟨m', he, -⟩
          · rw [Prod.mk.injEq] at he
            exact h1 hsf i (by omega)
          · rw [Prod.mk.injEq] at he
            exact absurd he.2 (by simp)
      have h5' : ∀ j m, (j, RpcCall.targetCall m) ∈ acc ++ iterCalls env k sv tv →
          ∀ i, i < j → tgtMatch env i = false := by
        intro j m hm i hij
        rw [List.mem_append] at hm
        rcases hm with hm | hm
        · exact h5 j m hm i hij
        · rcases mem_iterCalls env k sv tv (j, RpcCall.targetCall m) hm with
            ⟨m', he, -⟩ | ⟨m', he, htf⟩
          · rw [Prod.mk.injEq] at he
            exact absurd he.2 (by simp)
          · rw [Prod.mk.injEq] at he
            exact h2 htf i (by omega)
      by_cases hb : ((sv || srcMatch env k) && (tv || tgtMatch env k)) = true
      · rw [if_pos hb]
        exact ⟨h4', h5'⟩
      · rw [if_neg hb]
        refine ih (k + 1) (sv || srcMatch env k) (tv || tgtMatch env k)
          (acc ++ iterCalls env k sv tv) ?_ ?_ h3' h4' h5'
        · intro hs1 i hik
          rw [Bool.or_eq_false_iff] at hs1
          by_cases hike : i = k
          · rw [hike]
            exact hs1.2
          · exact h1 hs1.1 i (by omega)
        · intro ht1 i hik
          rw [Bool.or_eq_false_iff] at ht1
          by_cases hike : i = k
          · rw [hike]
            exact ht1.2
          · exact h2 ht1.1 i (by omega)
    · rw [if_neg hg]
      exact ⟨h4, h5⟩

/-- C5: waitForConnections resolves true exactly when, within the attempt
ceiling and with the wall clock below the overall timeout at every executed
iteration, both the source endpoint reports its configured expected chain
id and the target endpoint reports chain id 1 (each side's liveness probe
answering first); otherwise it throws the connection-verification error,
and the flags carried by that error state exactly which side(s) were
verified — never both — during the executed iterations. -/
theorem C5_waitForConnections_iff (env : WaitEnv) :
    ((waitForConnections env).outcome = WaitOutcome.verified ↔
      ∃ j, j < env.maxAttempts ∧
        (∀ i, i ≤ j → env.elapsedAt i < env.timeout) ∧
        (∃ i, i ≤ j ∧ srcMatch env i = true) ∧
        (∃ i, i ≤ j ∧ tgtMatch env i = true)) ∧
    (∀ sv tv, (waitForConnections env).outcome =
        WaitOutcome.verificationTimeout sv tv →
      ¬(sv = true ∧ tv = true) ∧
      (sv = true ↔ ∃ i, i < (waitForConnections env).attempts ∧
        srcMatch env i = true) ∧
      (tv = true ↔ ∃ i, i < (waitForConnections env).attempts ∧
        tgtMatch env i = true)) := by
  unfold waitForConnections
  constructor
  · rw [waitLoop_verified_iff env (env.maxAttempts + 1) 0 false false []
      (by omega)]
    constructor
    · rintro ⟨j, -, hjm, hel, hsrc, htgt⟩
      refine ⟨j, hjm, fun i hij => hel i (Nat.zero_le i) hij, ?_, ?_⟩
      · rcases hsrc with h | ⟨i, -, hij, hm⟩
        · exact absurd h (by simp)
        · exact ⟨i, hij, hm⟩
      · rcases htgt with h | ⟨i, -, hij, hm⟩
        · exact absurd h (by simp)
        · exact ⟨i, hij, hm⟩
    · rintro ⟨j, hjm, hel, ⟨i1, hi1, hm1⟩, ⟨i2, hi2, hm2⟩⟩
      exact ⟨j, Nat.zero_le j, hjm, fun i _ hij => hel i hij,
        Or.inr ⟨i1, Nat.zero_le i1, hi1, hm1⟩,
        Or.inr ⟨i2, Nat.zero_le i2, hi2, hm2⟩⟩
  · intro sv tv h
    obtain ⟨-, hsv, htv, hex⟩ := waitLoop_timeout_char env
      (env.maxAttempts + 1) 0 false false [] (by omega) sv tv h
    refine ⟨hex (by simp), ?_, ?_⟩
    · rw [hsv]
      constructor
      · rintro (h0 | ⟨i, -, hlt, hm⟩)
        · exact absurd h0 (by simp)
        · exact ⟨i, hlt, hm⟩
      · rintro ⟨i, hlt, hm⟩
        exact Or.inr ⟨i, Nat.zero_le i, hlt, hm⟩
    · rw [htv]
      constructor
      · rintro (h0 | ⟨i, -, hlt, hm⟩)
        · exact absurd h0 (by simp)
        · exact ⟨i, hlt, hm⟩
      · rintro ⟨i, hlt, hm⟩
        exact Or.inr ⟨i, Nat.zero_le i, hlt, hm⟩

/-- C5 witness: in the environment where the target verifies immediately
but the source keeps reporting the wrong chain id, the call throws after
its 5 attempts with flags source-unverified and target-verified, and the
flags match exactly what each side reported. -/
theorem C5_witness :
    ¬((false : Bool) = true ∧ (true : Bool) = true) ∧
    ((false : Bool) = true ↔ ∃ i, i < (waitForConnections envW2).attempts ∧
      srcMatch envW2 i = true) ∧
    ((true : Bool) = true ↔ ∃ i, i < (waitForConnections envW2).attempts ∧
      tgtMatch envW2 i = true) :=
  (C5_waitForConnections_iff envW2).2 false true (by decide)

/-- C9: verification is sticky and per side.  If the polling loop issues any
RPC to an endpoint at iteration j, that endpoint had not yet reported a
chain-id match at any earlier iteration — equivalently, once a side is
marked verified at some iteration, no further liveness or chain-id RPC is
ever issued to it, even while the other side is still unverified. -/
theorem C9_verified_side_not_repolled (env : WaitEnv) (j : Nat) (m : String) :
    ((j, RpcCall.sourceCall m) ∈ (waitForConnections env).calls →
      ∀ i, i < j → srcMatch env i = false) ∧
    ((j, RpcCall.targetCall m) ∈ (waitForConnections env).calls →
      ∀ i, i < j → tgtMatch env i = false) := by
  unfold waitForConnections
  have h := waitLoop_calls_inv env (env.maxAttempts + 1) 0 false false []
    (fun _ i hi => absurd hi (Nat.not_lt_zero i))
    (fun _ i hi => absurd hi (Nat.not_lt_zero i))
    (fun j c hm => absurd hm (List.not_mem_nil (j, c)))
    (fun j m hm => absurd hm (List.not_mem_nil (j, RpcCall.sourceCall m)))
    (fun j m hm => absurd hm (List.not_mem_nil (j, RpcCall.targetCall m)))
  exact ⟨fun hm => h.1 j m hm, fun hm => h.2 j m hm⟩

/-- C9 witness: in the environment where the source matches only from
iteration 1 on, the trace contains a source poll at iteration 1, and the
theorem applied to it yields that the source had not matched at iteration
0. -/
theorem C9_witness : srcMatch envW1 0 = false :=
  (C9_verified_side_not_repolled envW1 1 "eth_blockNumber").1 (by decide) 0
    (by decide)
